import Mathlib

/-!
Verification of the factsaic_ui client-side state synchronization logic.

The development shallowly embeds the relevant TypeScript sources:
  - src/src/types/api.ts            (data model)
  - src/src/contexts/AuthContext.tsx (AuthProvider initAuth and GroupsProvider
    operations refreshGroups, createNewConversation, sendNewMessage)
  - the API client (apiRequest and the storage helpers)

JavaScript strings are modelled as Lean strings over their character lists;
`s.substring(0, n)` becomes taking the first n characters and `s.length`
the character count.  Asynchronous network calls are modelled by passing the
response of each call as an explicit environment value (an `Except` carrying
either the error message or the parsed payload), and each operation returns,
besides its result and post-state, the ordered trace of the state-set and
network actions it performed, mirroring program order in the source.
-/

namespace Factsaic

/-- Mirrors interface User of src/src/types/api.ts. -/
structure User where
  id : String
  email : String
  name : String
  display_name : String
  created_at : String
  updated_at : String
  deriving Repr, DecidableEq

/-- Mirrors interface Group of src/src/types/api.ts. -/
structure Group where
  id : String
  name : String
  is_personal : Bool
  created_at : String
  updated_at : String
  deriving Repr, DecidableEq, Inhabited

/-- Mirrors interface Conversation of src/src/types/api.ts together with the
client-only flag of type ConversationWithDraft in the GroupsContext source:
a JavaScript object lacking the isDraft key behaves as isDraft false, so the
flag is a plain Bool here.  `title : string | null` becomes an option. -/
structure Conversation where
  id : String
  group_id : String
  title : Option String
  created_at : String
  updated_at : String
  isDraft : Bool
  deriving Repr, DecidableEq

/-- A conversation as returned by the server: interface Conversation of
src/src/types/api.ts, which has no isDraft key. -/
structure ServerConversation where
  id : String
  group_id : String
  title : Option String
  created_at : String
  updated_at : String
  deriving Repr, DecidableEq

/-- Reading a server conversation as a client record: the absent isDraft key
of the JavaScript object is falsy, hence isDraft false. -/
def ServerConversation.asClient (c : ServerConversation) : Conversation :=
  { id := c.id, group_id := c.group_id, title := c.title,
    created_at := c.created_at, updated_at := c.updated_at, isDraft := false }

/-- Mirrors interface AuthorInfo of src/src/types/api.ts. -/
structure AuthorInfo where
  id : String
  type : String
  name : String
  deriving Repr, DecidableEq

/-- Mirrors interface MessageContent of src/src/types/api.ts (the optional
metadata key is never touched by the embedded code and is omitted). -/
structure MessageContent where
  type : String
  text : String
  deriving Repr, DecidableEq

/-- Mirrors interface Message of src/src/types/api.ts. -/
structure Message where
  id : String
  conversation_id : String
  sequence_number : Nat
  author_type : String
  author_id : String
  author : AuthorInfo
  reply_to_message_id : Option String
  content : MessageContent
  created_at : String
  deriving Repr, DecidableEq

/-! ## The remote client (apiRequest of the API client source) -/

/-- A JSON value, as produced by response.json(). -/
inductive Json where
  | null : Json
  | bool (b : Bool) : Json
  | num (n : Int) : Json
  | str (s : String) : Json
  | arr (elems : List Json) : Json
  | obj (fields : List (String × Json)) : Json
  deriving Repr

/-- Field access errorData.detail on a parsed JSON value: a missing key or a
non-object yields undefined, modelled as none. -/
def Json.lookup : Json → String → Option Json
  | .obj fields, key => fields.lookup key
  | _, _ => none

/-- The observable part of a fetch Response: its status code, its statusText,
and what awaiting response.json() would yield (error Unit models a body that
is not parseable JSON, such as an empty body). -/
structure FetchResponse where
  status : Nat
  statusText : String
  jsonResult : Except Unit Json

/-- response.ok of the fetch API: status in the range 200 to 299. -/
def responseOk (status : Nat) : Bool :=
  200 ≤ status && status ≤ 299

/-- The ApiClientError thrown by apiRequest on a non-ok status.  The detail
field holds the value assigned to errorDetail: none models undefined (a parsed
error body without a detail key). -/
structure ApiClientError where
  status : Nat
  detail : Option Json
  deriving Repr

/-- How a call to apiRequest can fail: with the ApiClientError it throws on a
non-ok status, or with the rejection of response.json() on an ok status whose
body is not parseable. -/
inductive RequestFailure where
  | api (e : ApiClientError) : RequestFailure
  | parse : RequestFailure
  deriving Repr

/-- Shallow embedding of apiRequest of the API client source.  On a non-ok
status it throws ApiClientError, taking detail from the parsed error body
(the assignment errorDetail = errorData.detail, possibly undefined) or, when
the body does not parse, from statusText with the fallback message.  On
status 204 it resolves to the empty object without touching the body.  On any
other ok status it resolves to the parsed JSON body. -/
def apiRequest (r : FetchResponse) : Except RequestFailure Json :=
  if !(responseOk r.status) then
    let base := "Request failed with status " ++ toString r.status
    let detail : Option Json :=
      match r.jsonResult with
      | .ok errorData => errorData.lookup "detail"
      | .error _ => some (.str (if r.statusText.isEmpty then base else r.statusText))
    .error (.api { status := r.status, detail := detail })
  else if r.status == 204 then
    .ok (.obj [])
  else
    match r.jsonResult with
    | .ok body => .ok body
    | .error _ => .error .parse

/-! ## GroupsProvider state

One record per useState hook of the GroupsProvider in the GroupsContext
source. -/

structure GroupsState where
  groups : List Group
  selectedGroup : Option Group
  groupsLoading : Bool
  groupsError : Option String
  conversations : List Conversation
  selectedConversation : Option Conversation
  conversationsLoading : Bool
  conversationsError : Option String
  messages : List Message
  messagesLoading : Bool
  messagesError : Option String
  deriving Repr, DecidableEq

/-- One observable step of a GroupsProvider operation: a state-set call (the
value it sets) or the issuing of a network request, recorded in program
order. -/
inductive Action where
  | setGroups (l : List Group) : Action
  | setSelectedGroup (g : Option Group) : Action
  | setGroupsLoading (b : Bool) : Action
  | setGroupsError (e : Option String) : Action
  | setConversations (l : List Conversation) : Action
  | setSelectedConversation (c : Option Conversation) : Action
  | setMessages (l : List Message) : Action
  | setMessagesLoading (b : Bool) : Action
  | setMessagesError (e : Option String) : Action
  | netGetGroups : Action
  | netCreateConversation (groupId : String) (title : Option String) : Action
  | netSendMessage (conversationId : String) (content : String) : Action
  | netUpdateConversation (conversationId : String) (title : String) : Action
  deriving Repr, DecidableEq

/-- Whether an action is a network request. -/
def Action.isNet : Action → Bool
  | .netGetGroups => true
  | .netCreateConversation _ _ => true
  | .netSendMessage _ _ => true
  | .netUpdateConversation _ _ => true
  | _ => false

/-! ## refreshGroups

Embeds refreshGroups of the GroupsContext source.  The getGroups response is
passed in as an Except: ok carries response.groups, error carries the message
recorded by setGroupsError. -/

def refreshGroups (isAuthenticated : Bool) (resp : Except String (List Group))
    (s : GroupsState) : GroupsState × List Action :=
  if !isAuthenticated then (s, [])
  else
    let s1 := { s with groupsLoading := true, groupsError := none }
    let tr1 : List Action :=
      [.setGroupsLoading true, .setGroupsError none, .netGetGroups]
    match resp with
    | .ok gs =>
      let s2 := { s1 with groups := gs }
      let tr2 := tr1 ++ [.setGroups gs]
      if gs.length > 0 && s.selectedGroup.isNone then
        let sel := ((gs.find? fun g => !g.is_personal).getD gs.headI)
        ({ s2 with selectedGroup := some sel, groupsLoading := false },
         tr2 ++ [.setSelectedGroup (some sel), .setGroupsLoading false])
      else
        ({ s2 with groupsLoading := false }, tr2 ++ [.setGroupsLoading false])
    | .error e =>
      ({ s1 with groupsError := some e, groupsLoading := false },
       tr1 ++ [.setGroupsError (some e), .setGroupsLoading false])

/-! ## createNewConversation

Embeds createNewConversation of the GroupsContext source.  nowMs is Date.now()
and nowIso is new Date().toISOString(); data.title ?? null is the title
option. -/

def createNewConversation (nowMs : Nat) (nowIso : String) (title : Option String)
    (s : GroupsState) : Except String Conversation × GroupsState × List Action :=
  match s.selectedGroup with
  | none => (.error "No group selected", s, [])
  | some g =>
    let draftConversation : Conversation :=
      { id := "draft-" ++ toString nowMs, group_id := g.id, title := title,
        created_at := nowIso, updated_at := nowIso, isDraft := true }
    let convs := draftConversation :: s.conversations.filter (fun conv => !conv.isDraft)
    (.ok draftConversation,
     { s with messages := [], conversations := convs,
              selectedConversation := some draftConversation },
     [.setMessages [], .setConversations convs,
      .setSelectedConversation (some draftConversation)])

/-! ## sendNewMessage

Embeds sendNewMessage of the GroupsContext source.  The three possible
network round trips are passed in as Except values; nowMs and nowIso model
Date.now() and new Date().toISOString(). -/

structure SendEnv where
  nowMs : Nat
  nowIso : String
  createResp : Except String ServerConversation
  sendResp : Except String (Message × Message)
  updateResp : Except String ServerConversation

/-- JavaScript falsiness of targetConversation.title: null and the empty
string are falsy. -/
def titleFalsy : Option String → Bool
  | none => true
  | some t => t.isEmpty

/-- content.substring(0, n): the first n characters. -/
def jsSubstring (s : String) (n : Nat) : String := String.mk (s.data.take n)

/-- The generatedTitle expression of sendNewMessage: truncate to 47 characters
plus an ellipsis when content is longer than 50 characters. -/
def generateTitle (content : String) : String :=
  if content.length > 50 then jsSubstring content 47 ++ "..." else content

/-- What a call to sendNewMessage leaves behind: the settled promise (ok or
the thrown error message), the final provider state, and the action trace. -/
structure SendOutcome where
  result : Except String Unit
  state : GroupsState
  trace : List Action

/-- The optimistic user message of sendNewMessage: temporary id from
Date.now(), the author placeholder tempUserId, and the locally computed
sequence number current length + 1. -/
def optimisticMessage (env : SendEnv) (content : String) (target : Conversation)
    (msgs : List Message) : Message :=
  { id := "temp-" ++ toString env.nowMs,
    conversation_id := target.id,
    sequence_number := msgs.length + 1,
    author_type := "user",
    author_id := "temp-user",
    author := { id := "temp-user", type := "user", name := "You" },
    reply_to_message_id := none,
    content := { type := "text", text := content },
    created_at := env.nowIso }

/-- Lines 372 to 438 of the GroupsContext source: the optimistic append, the
send request, reconciliation, the title update, and the rollback on error.
target is the already promoted conversation and isFirstMessage the value
computed before promotion. -/
def sendPhase (env : SendEnv) (content : String) (isFirstMessage : Bool)
    (target : Conversation) (s : GroupsState) (tr : List Action) : SendOutcome :=
  let optimisticUserMessage := optimisticMessage env content target s.messages
  let msgs1 := s.messages ++ [optimisticUserMessage]
  let s1 := { s with messages := msgs1, messagesLoading := true, messagesError := none }
  let tr1 := tr ++ [.setMessages msgs1, .setMessagesLoading true,
                    .setMessagesError none, .netSendMessage target.id content]
  match env.sendResp with
  | .error e =>
    let msgs2 := msgs1.filter (fun m => m.id != optimisticUserMessage.id)
    { result := .error e,
      state := { s1 with messages := msgs2, messagesError := some e,
                         messagesLoading := false },
      trace := tr1 ++ [.setMessages msgs2, .setMessagesError (some e),
                       .setMessagesLoading false] }
  | .ok (userMessage, assistantMessage) =>
    let msgs2 := msgs1.filter (fun m => m.id != optimisticUserMessage.id)
                   ++ [userMessage, assistantMessage]
    let s2 := { s1 with messages := msgs2 }
    let tr2 := tr1 ++ [.setMessages msgs2]
    if isFirstMessage && titleFalsy target.title then
      let generatedTitle := generateTitle content
      let tr3 := tr2 ++ [.netUpdateConversation target.id generatedTitle]
      match env.updateResp with
      | .ok updated =>
        let convs := s2.conversations.map
          (fun conv => if conv.id == updated.id then updated.asClient else conv)
        { result := .ok (),
          state := { s2 with conversations := convs,
                             selectedConversation := some updated.asClient,
                             messagesLoading := false },
          trace := tr3 ++ [.setConversations convs,
                           .setSelectedConversation (some updated.asClient),
                           .setMessagesLoading false] }
      | .error _ =>
        { result := .ok (),
          state := { s2 with messagesLoading := false },
          trace := tr3 ++ [.setMessagesLoading false] }
    else
      { result := .ok (), state := { s2 with messagesLoading := false },
        trace := tr2 ++ [.setMessagesLoading false] }

/-- Embeds sendNewMessage of the GroupsContext source: the selection guard,
the draft promotion (create on the server, replace the draft entry, move the
selection pointer), then the send phase. -/
def sendNewMessage (env : SendEnv) (content : String) (s : GroupsState) : SendOutcome :=
  match s.selectedConversation with
  | none => { result := .error "No conversation selected", state := s, trace := [] }
  | some selectedConv =>
    let isFirstMessage := s.messages.length == 0
    if selectedConv.isDraft then
      match s.selectedGroup with
      | none => { result := .error "No group selected", state := s, trace := [] }
      | some g =>
        let tr0 : List Action := [.netCreateConversation g.id selectedConv.title]
        match env.createResp with
        | .error e => { result := .error e, state := s, trace := tr0 }
        | .ok created =>
          let target := created.asClient
          let convs := target :: s.conversations.filter (fun conv => conv.id != selectedConv.id)
          let s1 := { s with conversations := convs, selectedConversation := some target }
          sendPhase env content isFirstMessage target s1
            (tr0 ++ [.setConversations convs, .setSelectedConversation (some target)])
    else
      sendPhase env content isFirstMessage selectedConv s []

/-- The conversation a sendNewMessage call actually targets, given the
selected conversation c: c itself when it is not a draft, or the client
reading of the conversation the server created for the draft. -/
def sendTargets (env : SendEnv) (s : GroupsState) (c target : Conversation) : Prop :=
  (c.isDraft = false ∧ target = c) ∨
  (c.isDraft = true ∧ (∃ g, s.selectedGroup = some g) ∧
   ∃ sc, env.createResp = .ok sc ∧ target = sc.asClient)

/-! ## AuthProvider: initAuth

Embeds the initAuth effect of the AuthContext source together with the
persistent storage helpers of the API client (getToken, getStoredUser,
setStoredUser, clearToken, clearStoredUser). -/

structure AuthStorage where
  token : Option String
  storedUser : Option User
  deriving Repr, DecidableEq

structure AuthState where
  user : Option User
  isLoading : Bool
  storage : AuthStorage
  deriving Repr, DecidableEq

/-- JavaScript truthiness of getToken(): null and the empty string are
falsy. -/
def tokenTruthy : Option String → Bool
  | none => false
  | some t => !t.isEmpty

/-- isAuthenticated of the AuthContext value: the double negation of user. -/
def isAuthenticatedOf (s : AuthState) : Bool := s.user.isSome

/-- Embeds initAuth of the AuthContext source.  The getCurrentUser response is
passed in as an Except; the catch branch absorbs the error (the function is
total: no exception escapes), clears the persisted token and user, and the
finally-style tail clears the loading flag in every branch. -/
def initAuth (getCurrentUserResp : Except String User) (s : AuthState) : AuthState :=
  if tokenTruthy s.storage.token && s.storage.storedUser.isSome then
    match getCurrentUserResp with
    | .ok currentUser =>
      { user := some currentUser, isLoading := false,
        storage := { s.storage with storedUser := some currentUser } }
    | .error _ =>
      { user := s.user, isLoading := false,
        storage := { token := none, storedUser := none } }
  else
    { s with isLoading := false }

/-! ## Concrete fixtures

Sample values used to instantiate the theorems below on concrete inputs. -/

def emptyGroupsState : GroupsState :=
  { groups := [], selectedGroup := none, groupsLoading := false,
    groupsError := none, conversations := [], selectedConversation := none,
    conversationsLoading := false, conversationsError := none,
    messages := [], messagesLoading := false, messagesError := none }

def personalGroup : Group :=
  { id := "g-personal", name := "Personal", is_personal := true,
    created_at := "", updated_at := "" }

def sharedGroup : Group :=
  { id := "g-shared", name := "Team", is_personal := false,
    created_at := "", updated_at := "" }

def draftConv : Conversation :=
  { id := "draft-5", group_id := "g-shared", title := none,
    created_at := "", updated_at := "", isDraft := true }

def serverConv : ServerConversation :=
  { id := "c1", group_id := "g-shared", title := none,
    created_at := "", updated_at := "" }

def serverUserMsg : Message :=
  { id := "m1", conversation_id := "c1", sequence_number := 1,
    author_type := "user", author_id := "u1",
    author := { id := "u1", type := "user", name := "Al" },
    reply_to_message_id := none,
    content := { type := "text", text := "hi" }, created_at := "" }

def serverAssistantMsg : Message :=
  { id := "m2", conversation_id := "c1", sequence_number := 2,
    author_type := "assistant", author_id := "a1",
    author := { id := "a1", type := "assistant", name := "Bot" },
    reply_to_message_id := none,
    content := { type := "text", text := "hello" }, created_at := "" }

def sampleSendEnv : SendEnv :=
  { nowMs := 5, nowIso := "t",
    createResp := .ok serverConv,
    sendResp := .ok (serverUserMsg, serverAssistantMsg),
    updateResp := .ok serverConv }

def failSendEnv : SendEnv :=
  { nowMs := 5, nowIso := "t",
    createResp := .ok serverConv,
    sendResp := .error "network down",
    updateResp := .ok serverConv }

/-! ## Claims -/

/-- C10: in an unauthenticated state, refreshGroups returns immediately: it
performs no network call and leaves the group list, the selected group, the
groups loading flag and the groups error state (indeed the whole provider
state) unchanged. -/
theorem refreshGroups_unauthenticated_noop (sa : AuthState)
    (resp : Except String (List Group)) (s : GroupsState)
    (hsa : sa.user = none) :
    refreshGroups (isAuthenticatedOf sa) resp s = (s, []) := by
  simp [isAuthenticatedOf, hsa, refreshGroups]

/-- Witness for C10 at a concrete unauthenticated state. -/
theorem refreshGroups_unauthenticated_noop_witness :
    refreshGroups
      (isAuthenticatedOf { user := none, isLoading := false,
                           storage := { token := none, storedUser := none } })
      (.ok []) { groups := [], selectedGroup := none, groupsLoading := false,
                 groupsError := none, conversations := [],
                 selectedConversation := none, conversationsLoading := false,
                 conversationsError := none, messages := [],
                 messagesLoading := false, messagesError := none } =
      ({ groups := [], selectedGroup := none, groupsLoading := false,
         groupsError := none, conversations := [], selectedConversation := none,
         conversationsLoading := false, conversationsError := none,
         messages := [], messagesLoading := false, messagesError := none }, []) :=
  refreshGroups_unauthenticated_noop _ _ _ rfl

/-- C9: with no group selected, createNewConversation throws, performs no
network call (empty action trace) and leaves the whole provider state
unchanged. -/
theorem createNewConversation_no_group (nowMs : Nat) (nowIso : String)
    (title : Option String) (s : GroupsState) (h : s.selectedGroup = none) :
    createNewConversation nowMs nowIso title s = (.error "No group selected", s, []) := by
  simp [createNewConversation, h]

/-- Witness for C9 at a concrete state with no selected group. -/
theorem createNewConversation_no_group_witness :
    createNewConversation 7 "2024-01-01T00:00:00Z" none
      { groups := [], selectedGroup := none, groupsLoading := false,
        groupsError := none, conversations := [], selectedConversation := none,
        conversationsLoading := false, conversationsError := none,
        messages := [], messagesLoading := false, messagesError := none } =
      (.error "No group selected",
       { groups := [], selectedGroup := none, groupsLoading := false,
         groupsError := none, conversations := [], selectedConversation := none,
         conversationsLoading := false, conversationsError := none,
         messages := [], messagesLoading := false, messagesError := none }, []) :=
  createNewConversation_no_group _ _ _ _ rfl

/-- C7: when a token and a stored identity are present and the re-validation
fetch fails, initAuth clears both persisted values, the final state is
unauthenticated, and the loading flag is cleared (as it is for every response;
totality of initAuth embeds that no exception escapes the effect). -/
theorem initAuth_validation_failure (e : String) (s : AuthState)
    (htok : tokenTruthy s.storage.token = true)
    (huser : s.storage.storedUser.isSome = true)
    (hstart : s.user = none) :
    initAuth (.error e) s =
      { user := none, isLoading := false,
        storage := { token := none, storedUser := none } } ∧
    isAuthenticatedOf (initAuth (.error e) s) = false ∧
    (∀ resp : Except String User, (initAuth resp s).isLoading = false) := by
  refine ⟨?_, ?_, ?_⟩
  · simp [initAuth, htok, huser, hstart]
  · simp [initAuth, htok, huser, hstart, isAuthenticatedOf]
  · intro resp
    unfold initAuth
    split
    · cases resp <;> rfl
    · rfl

/-- Witness for C7: the scenario of the spec, token t1 with a stored identity,
and a rejected getCurrentUser. -/
theorem initAuth_validation_failure_witness :
    initAuth (.error "401")
      { user := none, isLoading := true,
        storage := { token := some "t1",
                     storedUser := some { id := "1", email := "a@b.com",
                                          name := "a", display_name := "a",
                                          created_at := "", updated_at := "" } } } =
      { user := none, isLoading := false,
        storage := { token := none, storedUser := none } } :=
  (initAuth_validation_failure "401"
    { user := none, isLoading := true,
      storage := { token := some "t1",
                   storedUser := some { id := "1", email := "a@b.com",
                                        name := "a", display_name := "a",
                                        created_at := "", updated_at := "" } } }
    (by decide) rfl rfl).1

/-- C8: apiRequest resolves a 204 response to the empty object for every body
outcome (no parse attempt), and resolves every other success-status response
to its parsed JSON body. -/
theorem apiRequest_success_resolution (r : FetchResponse) :
    (r.status = 204 → apiRequest r = .ok (Json.obj [])) ∧
    (responseOk r.status = true → r.status ≠ 204 →
      ∀ body : Json, r.jsonResult = .ok body → apiRequest r = .ok body) := by
  constructor
  · intro h204
    simp [apiRequest, h204, responseOk]
  · intro hok hne body hbody
    simp [apiRequest, hok, hne, hbody]

/-- Witness for C8: a 204 response with an unparseable empty body resolves to
the empty object, and a 200 response resolves to its parsed body. -/
theorem apiRequest_success_resolution_witness :
    apiRequest { status := 204, statusText := "No Content", jsonResult := .error () } =
      .ok (Json.obj []) ∧
    apiRequest { status := 200, statusText := "OK", jsonResult := .ok (.str "x") } =
      .ok (.str "x") :=
  ⟨(apiRequest_success_resolution
      { status := 204, statusText := "No Content", jsonResult := .error () }).1 rfl,
   (apiRequest_success_resolution
      { status := 200, statusText := "OK", jsonResult := .ok (.str "x") }).2
     (by decide) (by decide) _ rfl⟩

/-- C6: when a groups load succeeds with a non-empty list while no group is
selected, the selection becomes the first group in server order whose
is_personal flag is false, falling back to the first group when every group is
personal; an existing selection is never overridden. -/
theorem refreshGroups_autoselect (gs : List Group) (s : GroupsState) :
    (gs ≠ [] → s.selectedGroup = none →
      (refreshGroups true (.ok gs) s).1.selectedGroup =
        some ((gs.find? fun g => !g.is_personal).getD gs.headI)) ∧
    (∀ g0 : Group, s.selectedGroup = some g0 →
      (refreshGroups true (.ok gs) s).1.selectedGroup = some g0) := by
  constructor
  · intro hne hnone
    simp [refreshGroups, hnone, List.length_pos.mpr hne]
  · intro g0 hsel
    simp [refreshGroups, hsel]

/-- Witness for C6: with a personal group first and a shared group second and
no selection, the shared group is selected; with a selection present, it is
kept. -/
theorem refreshGroups_autoselect_witness :
    (refreshGroups true (.ok [personalGroup, sharedGroup]) emptyGroupsState).1.selectedGroup =
      some (([personalGroup, sharedGroup].find? fun g => !g.is_personal).getD
              [personalGroup, sharedGroup].headI) ∧
    (refreshGroups true (.ok [personalGroup, sharedGroup])
        { emptyGroupsState with selectedGroup := some personalGroup }).1.selectedGroup =
      some personalGroup :=
  ⟨(refreshGroups_autoselect [personalGroup, sharedGroup] emptyGroupsState).1
      (by decide) rfl,
   (refreshGroups_autoselect [personalGroup, sharedGroup]
      { emptyGroupsState with selectedGroup := some personalGroup }).2
      personalGroup rfl⟩

/-- C4: with a group selected, createNewConversation performs no network call,
puts a fresh draft (isDraft true, locally generated id, the given title) at the
head of the conversation list while removing every previously existing draft,
clears the message list, selects the new draft, and returns it; exactly one
draft remains in the list. -/
theorem createNewConversation_creates_draft (nowMs : Nat) (nowIso : String)
    (title : Option String) (s : GroupsState) (g : Group)
    (hg : s.selectedGroup = some g) :
    (∀ a ∈ (createNewConversation nowMs nowIso title s).2.2, a.isNet = false) ∧
    (createNewConversation nowMs nowIso title s).2.1.conversations =
      { id := "draft-" ++ toString nowMs, group_id := g.id, title := title,
        created_at := nowIso, updated_at := nowIso, isDraft := true }
        :: s.conversations.filter (fun conv => !conv.isDraft) ∧
    (createNewConversation nowMs nowIso title s).2.1.conversations.countP
      (fun conv => conv.isDraft) = 1 ∧
    (createNewConversation nowMs nowIso title s).2.1.messages = [] ∧
    (createNewConversation nowMs nowIso title s).2.1.selectedConversation =
      some { id := "draft-" ++ toString nowMs, group_id := g.id, title := title,
             created_at := nowIso, updated_at := nowIso, isDraft := true } ∧
    (createNewConversation nowMs nowIso title s).1 =
      .ok { id := "draft-" ++ toString nowMs, group_id := g.id, title := title,
            created_at := nowIso, updated_at := nowIso, isDraft := true } := by
  have key : createNewConversation nowMs nowIso title s =
      (.ok { id := "draft-" ++ toString nowMs, group_id := g.id, title := title,
             created_at := nowIso, updated_at := nowIso, isDraft := true },
       { s with messages := [],
                conversations :=
                  { id := "draft-" ++ toString nowMs, group_id := g.id, title := title,
                    created_at := nowIso, updated_at := nowIso, isDraft := true }
                    :: s.conversations.filter (fun conv => !conv.isDraft),
                selectedConversation :=
                  some { id := "draft-" ++ toString nowMs, group_id := g.id,
                         title := title, created_at := nowIso, updated_at := nowIso,
                         isDraft := true } },
       [.setMessages [],
        .setConversations
          ({ id := "draft-" ++ toString nowMs, group_id := g.id, title := title,
             created_at := nowIso, updated_at := nowIso, isDraft := true }
             :: s.conversations.filter (fun conv => !conv.isDraft)),
        .setSelectedConversation
          (some { id := "draft-" ++ toString nowMs, group_id := g.id, title := title,
                  created_at := nowIso, updated_at := nowIso, isDraft := true })]) := by
    unfold createNewConversation
    rw [hg]
  refine ⟨?_, ?_, ?_, ?_, ?_, ?_⟩
  · intro a ha
    rw [key] at ha
    simp only [List.mem_cons, List.not_mem_nil, or_false] at ha
    rcases ha with rfl | rfl | rfl <;> rfl
  · rw [key]
  · rw [key]
    have h0 : (s.conversations.filter fun conv => !conv.isDraft).countP
        (fun conv => conv.isDraft) = 0 := by
      rw [List.countP_eq_zero]
      intro conv hmem
      have hnd := (List.mem_filter.mp hmem).2
      simp only [Bool.not_eq_true'] at hnd
      simp [hnd]
    show ({ id := "draft-" ++ toString nowMs, group_id := g.id, title := title,
            created_at := nowIso, updated_at := nowIso, isDraft := true }
          :: s.conversations.filter (fun conv => !conv.isDraft)).countP
          (fun conv => conv.isDraft) = 1
    rw [List.countP_cons, h0]
    rfl
  · rw [key]
  · rw [key]
  · rw [key]

/-- Witness for C4 at a concrete state whose list holds an old draft and a
persisted conversation. -/
theorem createNewConversation_creates_draft_witness :
    ((createNewConversation 9 "t1" (some "hello")
        { emptyGroupsState with selectedGroup := some sharedGroup,
                                conversations := [draftConv, serverConv.asClient] }).2.1.conversations =
      { id := "draft-9", group_id := sharedGroup.id, title := some "hello",
        created_at := "t1", updated_at := "t1", isDraft := true }
        :: [draftConv, serverConv.asClient].filter (fun conv => !conv.isDraft)) ∧
    (createNewConversation 9 "t1" (some "hello")
        { emptyGroupsState with selectedGroup := some sharedGroup,
                                conversations := [draftConv, serverConv.asClient] }).2.1.conversations.countP
      (fun conv => conv.isDraft) = 1 :=
  ⟨((createNewConversation_creates_draft 9 "t1" (some "hello")
      { emptyGroupsState with selectedGroup := some sharedGroup,
                              conversations := [draftConv, serverConv.asClient] }
      sharedGroup rfl).2.1),
   ((createNewConversation_creates_draft 9 "t1" (some "hello")
      { emptyGroupsState with selectedGroup := some sharedGroup,
                              conversations := [draftConv, serverConv.asClient] }
      sharedGroup rfl).2.2.1)⟩

/-! ### Helper lemmas for sendNewMessage -/

/-- A targeted sendNewMessage call reduces to its send phase, and the
promotion step does not touch the message list. -/
theorem sendNewMessage_reduces (env : SendEnv) (content : String) (s : GroupsState)
    (c target : Conversation) (hsel : s.selectedConversation = some c)
    (ht : sendTargets env s c target) :
    ∃ (s1 : GroupsState) (tr0 : List Action),
      sendNewMessage env content s =
        sendPhase env content (s.messages.length == 0) target s1 tr0 ∧
      s1.messages = s.messages := by
  rcases ht with ⟨hnd, rfl⟩ | ⟨hd, ⟨g, hg⟩, sc, hcr, rfl⟩
  · refine ⟨s, [], ?_, rfl⟩
    simp [sendNewMessage, hsel, hnd]
  · refine ⟨{ s with
        conversations :=
          sc.asClient :: s.conversations.filter (fun conv => conv.id != c.id),
        selectedConversation := some sc.asClient },
      [.netCreateConversation g.id c.title,
       .setConversations
         (sc.asClient :: s.conversations.filter (fun conv => conv.id != c.id)),
       .setSelectedConversation (some sc.asClient)], ?_, rfl⟩
    simp [sendNewMessage, hsel, hd, hg, hcr]

/-- Appending the optimistic message and filtering its id away restores the
original list when no existing message carries its id. -/
theorem filter_optimistic (msgs : List Message) (m : Message)
    (hfresh : ∀ x ∈ msgs, x.id ≠ m.id) :
    (msgs ++ [m]).filter (fun x => x.id != m.id) = msgs := by
  rw [List.filter_append]
  have h1 : msgs.filter (fun x => x.id != m.id) = msgs :=
    List.filter_eq_self.mpr (fun x hx => by simpa using hfresh x hx)
  have h2 : [m].filter (fun x => x.id != m.id) = [] := by simp
  rw [h1, h2, List.append_nil]

/-- The send phase on a rejected send request: the thrown error, the restored
message list, the recorded error, and the cleared loading flag. -/
theorem sendPhase_error_spec (env : SendEnv) (content : String) (first : Bool)
    (target : Conversation) (s1 : GroupsState) (tr0 : List Action) (e : String)
    (hsend : env.sendResp = .error e)
    (hfresh : ∀ m ∈ s1.messages, m.id ≠ "temp-" ++ toString env.nowMs) :
    (sendPhase env content first target s1 tr0).result = .error e ∧
    (sendPhase env content first target s1 tr0).state.messages = s1.messages ∧
    (sendPhase env content first target s1 tr0).state.messagesError = some e ∧
    (sendPhase env content first target s1 tr0).state.messagesLoading = false := by
  have hfil := filter_optimistic s1.messages
    (optimisticMessage env content target s1.messages)
    (by intro x hx; simpa [optimisticMessage] using hfresh x hx)
  unfold sendPhase
  rw [hsend]
  exact ⟨rfl, hfil, rfl, rfl⟩

/-- The send phase on a successful send request settles ok and ends with the
two authoritative messages appended to the original list. -/
theorem sendPhase_success_spec (env : SendEnv) (content : String) (first : Bool)
    (target : Conversation) (s1 : GroupsState) (tr0 : List Action)
    (um am : Message) (hsend : env.sendResp = .ok (um, am))
    (hfresh : ∀ m ∈ s1.messages, m.id ≠ "temp-" ++ toString env.nowMs) :
    (sendPhase env content first target s1 tr0).result = .ok () ∧
    (sendPhase env content first target s1 tr0).state.messages =
      s1.messages ++ [um, am] := by
  have hfil := filter_optimistic s1.messages
    (optimisticMessage env content target s1.messages)
    (by intro x hx; simpa [optimisticMessage] using hfresh x hx)
  unfold sendPhase
  rw [hsend]
  have hbool : ∀ b : Bool, b = true ∨ b = false := fun b => by cases b <;> simp
  rcases hbool (first && titleFalsy target.title) with hif | hif <;>
    cases hup : env.updateResp <;>
      simp only [hif] <;>
        exact ⟨rfl, congrArg (· ++ [um, am]) hfil⟩

/-- On a successful first message of a conversation without a title, the send
phase issues the title-update request with the generated title, whether or not
that update succeeds. -/
theorem sendPhase_title_request (env : SendEnv) (content : String)
    (target : Conversation) (s1 : GroupsState) (tr0 : List Action)
    (um am : Message) (hsend : env.sendResp = .ok (um, am))
    (htitle : titleFalsy target.title = true) :
    Action.netUpdateConversation target.id (generateTitle content) ∈
      (sendPhase env content true target s1 tr0).trace := by
  unfold sendPhase
  rw [hsend, htitle]
  cases hup : env.updateResp <;> simp

/-- C2: when the send request fails, sendNewMessage restores the message list
to exactly its pre-send contents (the optimistic entry is rolled back, every
other message untouched), records the failure in the messages tier error
state, and re-throws the same error to the caller. -/
theorem sendNewMessage_failure_rollback (env : SendEnv) (content : String)
    (s : GroupsState) (c target : Conversation) (e : String)
    (hsel : s.selectedConversation = some c)
    (ht : sendTargets env s c target)
    (hsend : env.sendResp = .error e)
    (hfresh : ∀ m ∈ s.messages, m.id ≠ "temp-" ++ toString env.nowMs) :
    (sendNewMessage env content s).result = .error e ∧
    (sendNewMessage env content s).state.messages = s.messages ∧
    (sendNewMessage env content s).state.messagesError = some e := by
  obtain ⟨s1, tr0, heq, hmsgs⟩ := sendNewMessage_reduces env content s c target hsel ht
  have h := sendPhase_error_spec env content (s.messages.length == 0) target s1 tr0 e
    hsend (by rw [hmsgs]; exact hfresh)
  rw [heq]
  exact ⟨h.1, by rw [h.2.1, hmsgs], h.2.2.1⟩

/-- Witness for C2: a selected persisted conversation with one existing
message and a rejected send request. -/
theorem sendNewMessage_failure_rollback_witness :
    (sendNewMessage failSendEnv "hi"
        { emptyGroupsState with selectedConversation := some serverConv.asClient,
                                messages := [serverAssistantMsg] }).result =
      .error "network down" ∧
    (sendNewMessage failSendEnv "hi"
        { emptyGroupsState with selectedConversation := some serverConv.asClient,
                                messages := [serverAssistantMsg] }).state.messages =
      [serverAssistantMsg] :=
  have h := sendNewMessage_failure_rollback failSendEnv "hi"
    { emptyGroupsState with selectedConversation := some serverConv.asClient,
                            messages := [serverAssistantMsg] }
    serverConv.asClient serverConv.asClient "network down" rfl
    (Or.inl ⟨rfl, rfl⟩) rfl (by decide)
  ⟨h.1, h.2.1⟩

/-- C3: when the send request succeeds, the optimistic message with the
temporary id is gone from the message list and exactly the two authoritative
server messages are appended, the user message first and the assistant
message second. -/
theorem sendNewMessage_success_reconciliation (env : SendEnv) (content : String)
    (s : GroupsState) (c target : Conversation) (um am : Message)
    (hsel : s.selectedConversation = some c)
    (ht : sendTargets env s c target)
    (hsend : env.sendResp = .ok (um, am))
    (hfresh : ∀ m ∈ s.messages, m.id ≠ "temp-" ++ toString env.nowMs)
    (hum : um.id ≠ "temp-" ++ toString env.nowMs)
    (ham : am.id ≠ "temp-" ++ toString env.nowMs) :
    (sendNewMessage env content s).state.messages = s.messages ++ [um, am] ∧
    (∀ m ∈ (sendNewMessage env content s).state.messages,
      m.id ≠ "temp-" ++ toString env.nowMs) := by
  obtain ⟨s1, tr0, heq, hmsgs⟩ := sendNewMessage_reduces env content s c target hsel ht
  have h := sendPhase_success_spec env content (s.messages.length == 0) target s1 tr0
    um am hsend (by rw [hmsgs]; exact hfresh)
  rw [heq]
  refine ⟨by rw [h.2, hmsgs], ?_⟩
  intro m hm
  rw [h.2, hmsgs] at hm
  rcases List.mem_append.mp hm with h1 | h2
  · exact hfresh m h1
  · simp only [List.mem_cons, List.not_mem_nil, or_false] at h2
    rcases h2 with rfl | rfl
    · exact hum
    · exact ham

/-- Witness for C3: a successful send on a selected persisted conversation
with one existing message. -/
theorem sendNewMessage_success_reconciliation_witness :
    (sendNewMessage sampleSendEnv "hi"
        { emptyGroupsState with selectedConversation := some serverConv.asClient,
                                messages := [serverAssistantMsg],
                                conversations := [serverConv.asClient] }).state.messages =
      [serverAssistantMsg] ++ [serverUserMsg, serverAssistantMsg] :=
  (sendNewMessage_success_reconciliation sampleSendEnv "hi"
    { emptyGroupsState with selectedConversation := some serverConv.asClient,
                            messages := [serverAssistantMsg],
                            conversations := [serverConv.asClient] }
    serverConv.asClient serverConv.asClient serverUserMsg serverAssistantMsg rfl
    (Or.inl ⟨rfl, rfl⟩) rfl (by decide) (by decide) (by decide)).1

/-- C5: a successful first message on a conversation without a title issues a
title-update request whose title is the sent text, truncated to its first 47
characters plus an ellipsis when the text is longer than 50 characters; a
60-character message yields a 50-character title ending in three dots. -/
theorem sendNewMessage_autotitle (env : SendEnv) (content : String)
    (s : GroupsState) (c target : Conversation) (um am : Message)
    (hsel : s.selectedConversation = some c)
    (ht : sendTargets env s c target)
    (hfirst : s.messages = [])
    (hsend : env.sendResp = .ok (um, am))
    (htitle : titleFalsy target.title = true) :
    Action.netUpdateConversation target.id (generateTitle content) ∈
      (sendNewMessage env content s).trace ∧
    (content.length > 50 →
      generateTitle content = jsSubstring content 47 ++ "..." ∧
      (generateTitle content).length = 50) ∧
    (content.length ≤ 50 → generateTitle content = content) ∧
    (content.length = 60 →
      (generateTitle content).length = 50 ∧
      ∃ p : String, generateTitle content = p ++ "..." ∧ p.length = 47) := by
  have hjs : ∀ n : Nat, (jsSubstring content n).length = min n content.length := by
    intro n
    unfold jsSubstring
    rw [String.length_mk, List.length_take]
    rcases content with ⟨l⟩
    rfl
  have hgt : content.length > 50 →
      generateTitle content = jsSubstring content 47 ++ "..." ∧
      (generateTitle content).length = 50 := by
    intro h
    have heq : generateTitle content = jsSubstring content 47 ++ "..." := by
      unfold generateTitle
      rw [if_pos h]
    refine ⟨heq, ?_⟩
    rw [heq, String.length_append, hjs 47]
    have hmin : min 47 content.length = 47 := Nat.min_eq_left (by omega)
    rw [hmin]
    rfl
  refine ⟨?_, hgt, ?_, ?_⟩
  · obtain ⟨s1, tr0, heq, _⟩ := sendNewMessage_reduces env content s c target hsel ht
    have hlen : (s.messages.length == 0) = true := by rw [hfirst]; rfl
    rw [heq, hlen]
    exact sendPhase_title_request env content target s1 tr0 um am hsend htitle
  · intro h
    unfold generateTitle
    rw [if_neg (by omega)]
  · intro h
    obtain ⟨heq, hlen⟩ := hgt (by omega)
    exact ⟨hlen, jsSubstring content 47, heq, by rw [hjs 47, h]; decide⟩

/-- Witness for C5: the first message on a selected untitled persisted
conversation, with a successful send. -/
theorem sendNewMessage_autotitle_witness :
    Action.netUpdateConversation "c1" (generateTitle "hello") ∈
      (sendNewMessage sampleSendEnv "hello"
        { emptyGroupsState with selectedConversation := some serverConv.asClient,
                                conversations := [serverConv.asClient] }).trace ∧
    generateTitle "hello" = "hello" :=
  have h := sendNewMessage_autotitle sampleSendEnv "hello"
    { emptyGroupsState with selectedConversation := some serverConv.asClient,
                            conversations := [serverConv.asClient] }
    serverConv.asClient serverConv.asClient serverUserMsg serverAssistantMsg rfl
    (Or.inl ⟨rfl, rfl⟩) rfl rfl rfl
  ⟨h.1, h.2.2.1 (by decide)⟩

/-- A list headed by a record carrying the id, over a tail free of it, has
exactly one record with that id. -/
theorem countP_id_cons (idv : String) (r : Conversation) (l : List Conversation)
    (hr : r.id = idv) (hl : ∀ x ∈ l, x.id ≠ idv) :
    ((r :: l).countP fun c2 => c2.id == idv) = 1 := by
  rw [List.countP_cons]
  have h0 : (l.countP fun c2 => c2.id == idv) = 0 :=
    List.countP_eq_zero.mpr (fun x hx => by simpa using hl x hx)
  simp [h0, hr]

/-- Shape of a successful send phase: the trace opens with the given actions,
the optimistic bookkeeping, and the send request, and the conversation list of
the final state is either untouched or rewritten by a successful title
update. -/
theorem sendPhase_shape (env : SendEnv) (content : String) (first : Bool)
    (target : Conversation) (s1 : GroupsState) (tr0 : List Action)
    (um am : Message) (hsend : env.sendResp = .ok (um, am)) :
    ∃ suffix : List Action,
      (sendPhase env content first target s1 tr0).trace =
        tr0 ++ [Action.setMessages
                  (s1.messages ++ [optimisticMessage env content target s1.messages]),
                Action.setMessagesLoading true, Action.setMessagesError none]
            ++ Action.netSendMessage target.id content :: suffix ∧
      ((sendPhase env content first target s1 tr0).state.conversations =
         s1.conversations ∨
       ∃ u : ServerConversation, env.updateResp = .ok u ∧
         (sendPhase env content first target s1 tr0).state.conversations =
           s1.conversations.map
             (fun conv => if conv.id == u.id then u.asClient else conv)) := by
  unfold sendPhase
  rw [hsend]
  have hbool : ∀ b : Bool, b = true ∨ b = false := fun b => by cases b <;> simp
  rcases hbool (first && titleFalsy target.title) with hif | hif
  · cases hup : env.updateResp with
    | ok u =>
      simp only [hif]
      exact ⟨[Action.setMessages
                ((s1.messages ++ [optimisticMessage env content target s1.messages]).filter
                    (fun m => m.id != (optimisticMessage env content target s1.messages).id)
                  ++ [um, am]),
              Action.netUpdateConversation target.id (generateTitle content),
              Action.setConversations
                (s1.conversations.map
                  (fun conv => if conv.id == u.id then u.asClient else conv)),
              Action.setSelectedConversation (some u.asClient),
              Action.setMessagesLoading false],
             by simp, Or.inr ⟨u, rfl, rfl⟩⟩
    | error a =>
      simp only [hif]
      exact ⟨[Action.setMessages
                ((s1.messages ++ [optimisticMessage env content target s1.messages]).filter
                    (fun m => m.id != (optimisticMessage env content target s1.messages).id)
                  ++ [um, am]),
              Action.netUpdateConversation target.id (generateTitle content),
              Action.setMessagesLoading false],
             by simp, Or.inl rfl⟩
  · simp only [hif]
    exact ⟨[Action.setMessages
              ((s1.messages ++ [optimisticMessage env content target s1.messages]).filter
                  (fun m => m.id != (optimisticMessage env content target s1.messages).id)
                ++ [um, am]),
            Action.setMessagesLoading false],
           by simp, Or.inl rfl⟩

/-- C1: sending on a selected draft (sitting at the head of the list, where
every operation of the provider places drafts) promotes it: on success the
conversation list afterwards holds exactly one record with the server-assigned
id, that record has isDraft false and occupies position zero, the position the
draft occupied, and the selection pointer is moved to the persisted
conversation strictly before the send request is issued in the action
trace. -/
theorem sendNewMessage_draft_promotion (env : SendEnv) (content : String)
    (s : GroupsState) (c : Conversation) (rest : List Conversation) (g : Group)
    (sc : ServerConversation) (um am : Message)
    (hsel : s.selectedConversation = some c)
    (hdraft : c.isDraft = true)
    (hg : s.selectedGroup = some g)
    (hconvs : s.conversations = c :: rest)
    (hcr : env.createResp = .ok sc)
    (hsend : env.sendResp = .ok (um, am))
    (hfresh : ∀ c2 ∈ s.conversations, c2.id ≠ sc.id)
    (hupd : ∀ sc2 : ServerConversation, env.updateResp = .ok sc2 → sc2.id = sc.id) :
    ((sendNewMessage env content s).state.conversations.countP
        fun c2 => c2.id == sc.id) = 1 ∧
    (∃ r rest2, (sendNewMessage env content s).state.conversations = r :: rest2 ∧
      r.id = sc.id ∧ r.isDraft = false) ∧
    (s.conversations.findIdx fun c2 => c2.id == c.id) = 0 ∧
    (∃ pre post, (sendNewMessage env content s).trace =
        pre ++ Action.netSendMessage sc.id content :: post ∧
      Action.setSelectedConversation (some sc.asClient) ∈ pre) := by
  have hkey : sendNewMessage env content s =
      sendPhase env content (s.messages.length == 0) sc.asClient
        { s with conversations :=
                   sc.asClient :: s.conversations.filter (fun conv => conv.id != c.id),
                 selectedConversation := some sc.asClient }
        [.netCreateConversation g.id c.title,
         .setConversations
           (sc.asClient :: s.conversations.filter (fun conv => conv.id != c.id)),
         .setSelectedConversation (some sc.asClient)] := by
    simp [sendNewMessage, hsel, hdraft, hg, hcr]
  obtain ⟨suffix, htr, hconv⟩ := sendPhase_shape env content (s.messages.length == 0)
    sc.asClient
    { s with conversations :=
               sc.asClient :: s.conversations.filter (fun conv => conv.id != c.id),
             selectedConversation := some sc.asClient }
    [.netCreateConversation g.id c.title,
     .setConversations
       (sc.asClient :: s.conversations.filter (fun conv => conv.id != c.id)),
     .setSelectedConversation (some sc.asClient)]
    um am hsend
  have htail : ∀ x ∈ s.conversations.filter (fun conv => conv.id != c.id),
      x.id ≠ sc.id := fun x hx => hfresh x (List.mem_filter.mp hx).1
  refine ⟨?_, ?_, ?_, ?_⟩
  · rw [hkey]
    rcases hconv with hc | ⟨u, hu, hc⟩
    · rw [hc]
      exact countP_id_cons sc.id sc.asClient _ rfl htail
    · rw [hc]
      have huid : u.id = sc.id := hupd u hu
      rw [List.map_cons]
      have hhead : (if sc.asClient.id == u.id then u.asClient else sc.asClient) =
          u.asClient := by
        rw [if_pos]
        simp [ServerConversation.asClient, huid]
      have hmap : (s.conversations.filter (fun conv => conv.id != c.id)).map
          (fun conv => if conv.id == u.id then u.asClient else conv) =
          s.conversations.filter (fun conv => conv.id != c.id) := by
        have hcg := List.map_congr_left
          (l := s.conversations.filter (fun conv => conv.id != c.id))
          (f := fun conv => if conv.id == u.id then u.asClient else conv) (g := id)
          (fun x hx => by
            have hxne : x.id ≠ u.id := by rw [huid]; exact htail x hx
            simp [hxne])
        rw [hcg, List.map_id]
      rw [hhead, hmap]
      exact countP_id_cons sc.id u.asClient _
        (by simp [ServerConversation.asClient, huid]) htail
  · rw [hkey]
    rcases hconv with hc | ⟨u, hu, hc⟩
    · exact ⟨sc.asClient, s.conversations.filter (fun conv => conv.id != c.id),
        hc, rfl, rfl⟩
    · refine ⟨(if sc.asClient.id == u.id then u.asClient else sc.asClient),
        (s.conversations.filter (fun conv => conv.id != c.id)).map
          (fun conv => if conv.id == u.id then u.asClient else conv),
        by rw [hc, List.map_cons], ?_, ?_⟩
      · have huid : u.id = sc.id := hupd u hu
        rw [if_pos (by simp [ServerConversation.asClient, huid])]
        simp [ServerConversation.asClient, huid]
      · have huid : u.id = sc.id := hupd u hu
        rw [if_pos (by simp [ServerConversation.asClient, huid])]
        rfl
  · rw [hconvs]
    simp [List.findIdx_cons]
  · refine ⟨[Action.netCreateConversation g.id c.title,
             Action.setConversations
               (sc.asClient :: s.conversations.filter (fun conv => conv.id != c.id)),
             Action.setSelectedConversation (some sc.asClient)] ++
            [Action.setMessages
               (s.messages ++ [optimisticMessage env content sc.asClient s.messages]),
             Action.setMessagesLoading true, Action.setMessagesError none],
            suffix, ?_, by simp⟩
    rw [hkey, htr]
    simp [ServerConversation.asClient]

/-- Witness for C1: a draft at the head of the list, a selected group, and a
fully successful environment. -/
theorem sendNewMessage_draft_promotion_witness :
    ((sendNewMessage sampleSendEnv "hi"
        { emptyGroupsState with selectedGroup := some sharedGroup,
                                selectedConversation := some draftConv,
                                conversations := [draftConv] }).state.conversations.countP
      fun c2 => c2.id == "c1") = 1 :=
  (sendNewMessage_draft_promotion sampleSendEnv "hi"
    { emptyGroupsState with selectedGroup := some sharedGroup,
                            selectedConversation := some draftConv,
                            conversations := [draftConv] }
    draftConv [] sharedGroup serverConv serverUserMsg serverAssistantMsg
    rfl rfl rfl rfl rfl rfl (by decide)
    (fun sc2 h => by cases h; rfl)).1

end Factsaic
